import Mathlib

/-!
Shallow embedding of the call-transcript structured-outcome extractor of the
AI-Voice-Agent-Tool repository.

Embedded source:
* `generateSummary` and `extractFromTranscript`
  (src/frontend/src/components/ui/ScenarioCard.tsx, lines 275-341);
* `analyzeCallTranscript` (src/frontend/src/components/CallInterface.tsx,
  lines 508-545);
* `DEFAULT_EMERGENCY_PHRASES` (src/frontend/src/utils/api.ts, lines 167-170);
* `FIELD_DEFINITIONS` / `SCENARIO_FIELDS`
  (src/frontend/src/constants/fieldDefinitions.ts).

JavaScript strings are modelled as Lean `String`s; `toLowerCase` as
`Char.toLower` mapped over the characters (the transcripts involved are
ASCII); `String.prototype.includes` as a contiguous-sublist test on the
character list; object literals as association lists from field key to a
tagged string/boolean value, in the source's field order.
-/

namespace DispatchCore

/-- A field value of a structured summary: the JS objects returned by the
extractors hold only strings and booleans. -/
inductive FV where
  | str : String → FV
  | bool : Bool → FV
deriving DecidableEq, Repr

/-- Speaker tag of one utterance of the transcript. -/
inductive Speaker where
  | dispatcher : Speaker
  | driver : Speaker
deriving DecidableEq, Repr

/-- One speaker-tagged utterance of the utterance log. -/
structure Utterance where
  speaker : Speaker
  text : String
deriving DecidableEq, Repr

/-- How the UI accumulates the transcript string: each utterance is appended
as `"AI: "`/`"Driver: "` plus the text plus a blank line, exactly as the
`setTranscript(prev => prev + "AI: ...\n\n")` calls in ScenarioCard.tsx do. -/
def renderUtterance (u : Utterance) : String :=
  (match u.speaker with
   | Speaker.dispatcher => "AI: "
   | Speaker.driver => "Driver: ") ++ u.text ++ "\n\n"

/-- The transcript string accumulated from an utterance log. -/
def renderLog : List Utterance → String
  | [] => ""
  | u :: rest => renderUtterance u ++ renderLog rest

/-- The character list of a string lower-cased, modelling
`transcript.toLowerCase()` on ASCII text. -/
def lowerData (s : String) : List Char :=
  s.data.map Char.toLower

/-- Contiguous-sublist test, modelling `String.prototype.includes`:
`containsSub needle hay` is true iff `needle` occurs contiguously in `hay`. -/
def containsSub (needle : List Char) : List Char → Bool
  | [] => needle.isEmpty
  | c :: rest => needle.isPrefixOf (c :: rest) || containsSub needle rest

/-- `lowerTranscript.includes(kw)`: the keyword occurs in the lower-cased
text (the keyword literals in the source are already lower-case). -/
def containsLC (s : String) (kw : String) : Bool :=
  containsSub kw.data (lowerData s)

/-- `DEFAULT_EMERGENCY_PHRASES` from src/frontend/src/utils/api.ts. -/
def DEFAULT_EMERGENCY_PHRASES : List String :=
  ["emergency", "accident", "breakdown", "medical", "help", "urgent",
   "blowout", "crash", "collision", "injury", "hurt", "stuck", "disabled"]

/-- The emergency test of `generateSummary` (ScenarioCard.tsx line 278):
`lowerTranscript.includes('emergency') || includes('blowout') ||
includes('accident') || includes('breakdown')`. -/
def hasEmergencyKw (transcript : String) : Bool :=
  containsLC transcript "emergency" || containsLC transcript "blowout" ||
  containsLC transcript "accident" || containsLC transcript "breakdown"

/-! ### The regex matchers used by `extractFromTranscript`

`extractFromTranscript(text, regex)` returns `text.match(regex)[0]` for the
first (leftmost) match, or `''` when there is none.  The two regexes used are
`/mile marker \d+|i-\d+/i` and `/\d{1,2}:\d{2}|\d+ pm|\d+ am/i`.  They are
modelled positionally: at each start position the alternatives are tried in
order, the leftmost matching position wins, and the matched characters keep
their original case (the `i` flag only affects comparison). -/

/-- Case-insensitive literal match: if `cs` starts with `pat` up to
`Char.toLower`, return the matched original characters and the rest. -/
def matchLitCI : List Char → List Char → Option (List Char × List Char)
  | [], cs => some ([], cs)
  | _ :: _, [] => none
  | p :: ps, c :: cs =>
    if c.toLower = p then
      match matchLitCI ps cs with
      | some (m, rest) => some (c :: m, rest)
      | none => none
    else none

/-- Greedy split of the leading run of decimal digits, modelling `\d+`. -/
def spanDigits : List Char → List Char × List Char
  | [] => ([], [])
  | c :: cs =>
    if c.isDigit then
      let (d, rest) := spanDigits cs
      (c :: d, rest)
    else ([], c :: cs)

/-- `\d+` followed by a case-insensitive literal suffix (e.g. `" pm"`); the
greedy digit run never backtracks usefully because the suffix starts with a
non-digit. -/
def matchDigitsSuffix (sfx : List Char) (cs : List Char) : Option (List Char) :=
  let (d, rest) := spanDigits cs
  if d.isEmpty then none
  else
    match matchLitCI sfx rest with
    | some (m, _) => some (d ++ m)
    | none => none

/-- One alternative of the location regex: a case-insensitive literal
followed by `\d+` (used for `mile marker \d+` and `i-\d+`). -/
def matchLitDigits (lit : List Char) (cs : List Char) : Option (List Char) :=
  match matchLitCI lit cs with
  | some (m, rest) =>
    let (d, _) := spanDigits rest
    if d.isEmpty then none else some (m ++ d)
  | none => none

/-- `/mile marker \d+|i-\d+/i` at one start position: the two alternatives
in source order. -/
def locRegexAt (cs : List Char) : Option (List Char) :=
  match matchLitDigits "mile marker ".data cs with
  | some m => some m
  | none => matchLitDigits "i-".data cs

/-- `\d{1,2}:\d{2}` with two hour digits. -/
def matchTime2 : List Char → Option (List Char)
  | a :: b :: ':' :: c :: d :: _ =>
    if a.isDigit && b.isDigit && c.isDigit && d.isDigit then
      some [a, b, ':', c, d]
    else none
  | _ => none

/-- `\d{1,2}:\d{2}` with one hour digit (the backtracking fallback of the
greedy `{1,2}`). -/
def matchTime1 : List Char → Option (List Char)
  | a :: ':' :: c :: d :: _ =>
    if a.isDigit && c.isDigit && d.isDigit then
      some [a, ':', c, d]
    else none
  | _ => none

/-- `/\d{1,2}:\d{2}|\d+ pm|\d+ am/i` at one start position: alternatives in
source order, `{1,2}` greedy. -/
def etaRegexAt (cs : List Char) : Option (List Char) :=
  match matchTime2 cs with
  | some m => some m
  | none =>
  match matchTime1 cs with
  | some m => some m
  | none =>
  match matchDigitsSuffix " pm".data cs with
  | some m => some m
  | none => matchDigitsSuffix " am".data cs

/-- Leftmost match: try the positional matcher at each start position from
the left, as `String.prototype.match` does for a non-global regex. -/
def findFirstMatch (at_ : List Char → Option (List Char)) :
    List Char → Option (List Char)
  | [] => at_ []
  | c :: cs =>
    match at_ (c :: cs) with
    | some m => some m
    | none => findFirstMatch at_ cs

/-- `extractFromTranscript(text, regex)` (ScenarioCard.tsx lines 338-341):
the first match's text, or `''` when the regex does not match. -/
def extractFromTranscript (text : String) (at_ : List Char → Option (List Char)) :
    String :=
  match findFirstMatch at_ text.data with
  | some m => String.mk m
  | none => ""

/-- JS `s || fallback` for a string `s` that is `''` exactly when the regex
failed: the falsy empty string selects the fallback. -/
def orElseStr (s fallback : String) : String :=
  if s = "" then fallback else s

/-- `generateSummary(transcript)` from ScenarioCard.tsx lines 275-336,
transcribed branch by branch; the returned object literals become
association lists in the source's key order. -/
def generateSummary (transcript : String) : List (String × FV) :=
  if hasEmergencyKw transcript then
    [("call_outcome", FV.str "Emergency Escalation"),
     ("driver_status", FV.str "Emergency"),
     ("current_location",
       FV.str (orElseStr (extractFromTranscript transcript locRegexAt)
         "I-10 mile marker 78")),
     ("eta", FV.str "Delayed due to emergency"),
     ("delay_reason", FV.str "Emergency"),
     ("unloading_status", FV.str "N/A"),
     ("pod_reminder_acknowledged", FV.bool false),
     ("emergency_type",
       FV.str (if containsLC transcript "blowout" then "Breakdown" else "Other")),
     ("safety_status", FV.str "Driver confirmed everyone is safe"),
     ("injury_status", FV.str "No injuries reported"),
     ("emergency_location", FV.str "I-10 eastbound mile marker 78"),
     ("load_secure", FV.bool true),
     ("escalation_status", FV.str "Connected to Human Dispatcher")]
  else if containsLC transcript "late" || containsLC transcript "delay" ||
      containsLC transcript "traffic" || containsLC transcript "construction" then
    [("call_outcome", FV.str "In-Transit Update"),
     ("driver_status", FV.str "Delayed"),
     ("current_location",
       FV.str (orElseStr (extractFromTranscript transcript locRegexAt)
         "I-10 mile marker 65")),
     ("eta",
       FV.str (orElseStr (extractFromTranscript transcript etaRegexAt) "5:00 PM")),
     ("delay_reason",
       FV.str (if containsLC transcript "traffic" then "Heavy Traffic"
         else if containsLC transcript "construction" then "Heavy Traffic"
         else "Other")),
     ("unloading_status", FV.str "N/A"),
     ("pod_reminder_acknowledged", FV.bool true)]
  else if containsLC transcript "arrived" || containsLC transcript "here" ||
      containsLC transcript "dock" || containsLC transcript "unloading" then
    [("call_outcome", FV.str "Arrival Confirmation"),
     ("driver_status", FV.str "Arrived"),
     ("current_location", FV.str "At destination dock"),
     ("eta", FV.str "Already arrived"),
     ("delay_reason", FV.str "None"),
     ("unloading_status",
       FV.str (if containsLC transcript "door" then "In Door"
         else if containsLC transcript "waiting" then "Waiting for Lumper"
         else "At Dock")),
     ("pod_reminder_acknowledged", FV.bool true)]
  else
    [("call_outcome", FV.str "In-Transit Update"),
     ("driver_status", FV.str "Driving"),
     ("current_location",
       FV.str (orElseStr (extractFromTranscript transcript locRegexAt)
         "I-10 mile marker 85")),
     ("eta",
       FV.str (orElseStr (extractFromTranscript transcript etaRegexAt) "2:00 PM")),
     ("delay_reason", FV.str "None"),
     ("unloading_status", FV.str "N/A"),
     ("pod_reminder_acknowledged",
       FV.bool (containsLC transcript "pod" || containsLC transcript "delivery"))]

/-- Field access on a summary: the value stored under a key. -/
def getField (s : List (String × FV)) (k : String) : Option FV :=
  s.lookup k

/-! ### `analyzeCallTranscript` (CallInterface.tsx lines 508-545)

Its location heuristic is the regex
`/(?:at|near|on)\s+([A-Za-z0-9\s]+?)(?:\s|$|,|\.|;)/i` applied with
`String.prototype.match`: leftmost start position wins; at a position the
keyword alternatives are tried in order, `\s+` is greedy with backtracking,
the capture class `[A-Za-z0-9\s]` is lazy (shortest capture whose next
character is a terminator `\s`, `,`, `.`, `;` or the end of the string). -/

/-- JS `\s` on the ASCII whitespace the transcripts contain. -/
def wsChar (c : Char) : Bool :=
  c = ' ' || c = '\t' || c = '\n' || c = '\r'

/-- The capture class `[A-Za-z0-9\s]`. -/
def capClassChar (c : Char) : Bool :=
  c.isAlphanum || wsChar c

/-- The terminator alternatives `\s`, `,`, `.`, `;` (the `$` alternative is
the end-of-list case of `lazyCapture`). -/
def termChar (c : Char) : Bool :=
  wsChar c || c = ',' || c = '.' || c = ';'

/-- The lazy capture `([A-Za-z0-9\s]+?)` followed by `(?:\s|$|,|\.|;)`:
take one class character, stop as soon as the next character is a
terminator (or the input ends), otherwise extend. -/
def lazyCapture : List Char → Option (List Char)
  | [] => none
  | c :: cs =>
    if capClassChar c then
      match cs with
      | [] => some [c]
      | d :: _ =>
        if termChar d then some [c]
        else
          match lazyCapture cs with
          | some more => some (c :: more)
          | none => none
    else none

/-- Greedy extension of `\s+` past its first mandatory whitespace character:
consume further whitespace first, and on failure give it back to the lazy
capture (whitespace is also in the capture class). -/
def afterWsRun : List Char → Option (List Char)
  | [] => none
  | c :: cs =>
    if wsChar c then
      match afterWsRun cs with
      | some m => some m
      | none => lazyCapture (c :: cs)
    else lazyCapture (c :: cs)

/-- After one of `at`/`near`/`on`: `\s+` needs at least one whitespace
character, then `afterWsRun` handles greediness and the capture. -/
def kwTail : List Char → Option (List Char)
  | [] => none
  | c :: cs => if wsChar c then afterWsRun cs else none

/-- The whole location regex at one start position: keyword alternatives
`at`, `near`, `on` in source order (case-insensitive). -/
def locCaptureAt (cs : List Char) : Option (List Char) :=
  match (match matchLitCI "at".data cs with
         | some (_, r) => kwTail r
         | none => none) with
  | some m => some m
  | none =>
  match (match matchLitCI "near".data cs with
         | some (_, r) => kwTail r
         | none => none) with
  | some m => some m
  | none =>
  match matchLitCI "on".data cs with
  | some (_, r) => kwTail r
  | none => none

/-- `String.prototype.trim` on the character list. -/
def trimWs (cs : List Char) : List Char :=
  ((cs.dropWhile wsChar).reverse.dropWhile wsChar).reverse

/-- `analyzeCallTranscript(transcript)` from CallInterface.tsx lines
508-545, transcribed statement by statement. -/
def analyzeCallTranscript (transcript : String) : List (String × FV) :=
  let emergencyKeywords := ["emergency", "accident", "help", "stuck", "breakdown", "injured"]
  let hasEmergency := emergencyKeywords.any (fun keyword => containsLC transcript keyword)
  let call_outcome := if hasEmergency then "emergency" else "completed"
  let driver_status := if hasEmergency then "emergency" else "checked_in"
  let delayKeywords := ["late", "delay", "traffic", "behind schedule", "running late"]
  let delay_reason :=
    if delayKeywords.any (fun keyword => containsLC transcript keyword) then "traffic_delay"
    else ""
  let current_location :=
    match findFirstMatch locCaptureAt transcript.data with
    | some cap => String.mk (trimWs cap)
    | none => "unknown"
  [("call_outcome", FV.str call_outcome),
   ("driver_status", FV.str driver_status),
   ("current_location", FV.str current_location),
   ("eta", FV.str "unknown"),
   ("delay_reason", FV.str delay_reason),
   ("unloading_status", FV.str "in_progress"),
   ("pod_reminder_acknowledged", FV.bool false)]

/-! ### Field definitions and scenario field sets
(src/frontend/src/constants/fieldDefinitions.ts) -/

/-- The `type` union of a `StructuredField`. -/
inductive FieldType where
  | text : FieldType
  | select : FieldType
  | boolean : FieldType
deriving DecidableEq, Repr

/-- `StructuredField` from fieldDefinitions.ts; `options` is `none` for the
fields that omit it. -/
structure StructuredField where
  key : String
  label : String
  type : FieldType
  options : Option (List String) := none
deriving DecidableEq, Repr

/-- `FIELD_DEFINITIONS.CALL_OUTCOME`. -/
def FD_CALL_OUTCOME : StructuredField :=
  { key := "call_outcome", label := "Call Outcome", type := FieldType.select,
    options := some ["In-Transit Update", "Arrival Confirmation", "Emergency Escalation"] }

/-- `FIELD_DEFINITIONS.DRIVER_STATUS`. -/
def FD_DRIVER_STATUS : StructuredField :=
  { key := "driver_status", label := "Driver Status", type := FieldType.select,
    options := some ["Driving", "Delayed", "Arrived", "Unloading"] }

/-- `FIELD_DEFINITIONS.CURRENT_LOCATION`. -/
def FD_CURRENT_LOCATION : StructuredField :=
  { key := "current_location", label := "Current Location", type := FieldType.text }

/-- `FIELD_DEFINITIONS.ETA`. -/
def FD_ETA : StructuredField :=
  { key := "eta", label := "ETA", type := FieldType.text }

/-- `FIELD_DEFINITIONS.DELAY_REASON`. -/
def FD_DELAY_REASON : StructuredField :=
  { key := "delay_reason", label := "Delay Reason", type := FieldType.select,
    options := some ["Heavy Traffic", "Weather", "Mechanical", "Loading/Unloading", "None"] }

/-- `FIELD_DEFINITIONS.UNLOADING_STATUS`. -/
def FD_UNLOADING_STATUS : StructuredField :=
  { key := "unloading_status", label := "Unloading Status", type := FieldType.select,
    options := some ["In Door", "Waiting for Lumper", "Detention", "N/A"] }

/-- `FIELD_DEFINITIONS.POD_REMINDER`. -/
def FD_POD_REMINDER : StructuredField :=
  { key := "pod_reminder_acknowledged", label := "POD Reminder", type := FieldType.boolean }

/-- `FIELD_DEFINITIONS.EMERGENCY_TYPE`. -/
def FD_EMERGENCY_TYPE : StructuredField :=
  { key := "emergency_type", label := "Emergency Type", type := FieldType.select,
    options := some ["Accident", "Breakdown", "Medical", "Other"] }

/-- `FIELD_DEFINITIONS.SAFETY_STATUS`. -/
def FD_SAFETY_STATUS : StructuredField :=
  { key := "safety_status", label := "Safety Status", type := FieldType.text }

/-- `FIELD_DEFINITIONS.INJURY_STATUS`. -/
def FD_INJURY_STATUS : StructuredField :=
  { key := "injury_status", label := "Injury Status", type := FieldType.text }

/-- `FIELD_DEFINITIONS.EMERGENCY_LOCATION`. -/
def FD_EMERGENCY_LOCATION : StructuredField :=
  { key := "emergency_location", label := "Emergency Location", type := FieldType.text }

/-- `FIELD_DEFINITIONS.LOAD_SECURE`. -/
def FD_LOAD_SECURE : StructuredField :=
  { key := "load_secure", label := "Load Secure", type := FieldType.boolean }

/-- `FIELD_DEFINITIONS.ESCALATION_STATUS`. -/
def FD_ESCALATION_STATUS : StructuredField :=
  { key := "escalation_status", label := "Escalation Status", type := FieldType.text }

/-- `SCENARIO_FIELDS.GENERAL`. -/
def SCENARIO_FIELDS_GENERAL : List StructuredField :=
  [FD_CALL_OUTCOME, FD_DRIVER_STATUS, FD_CURRENT_LOCATION, FD_ETA,
   FD_DELAY_REASON, FD_UNLOADING_STATUS, FD_POD_REMINDER, FD_EMERGENCY_TYPE,
   FD_SAFETY_STATUS, FD_INJURY_STATUS, FD_EMERGENCY_LOCATION, FD_LOAD_SECURE,
   FD_ESCALATION_STATUS]

/-- `SCENARIO_FIELDS.DRIVER_CHECKIN` (its `call_outcome` entry narrows the
option list with a spread, keeping the key). -/
def SCENARIO_FIELDS_DRIVER_CHECKIN : List StructuredField :=
  [{ FD_CALL_OUTCOME with options := some ["In-Transit Update", "Arrival Confirmation"] },
   FD_DRIVER_STATUS, FD_CURRENT_LOCATION, FD_ETA, FD_DELAY_REASON,
   FD_UNLOADING_STATUS, FD_POD_REMINDER]

/-- `SCENARIO_FIELDS.EMERGENCY_PROTOCOL`. -/
def SCENARIO_FIELDS_EMERGENCY_PROTOCOL : List StructuredField :=
  [{ FD_CALL_OUTCOME with options := some ["Emergency Escalation"] },
   FD_EMERGENCY_TYPE, FD_SAFETY_STATUS, FD_INJURY_STATUS,
   FD_EMERGENCY_LOCATION, FD_LOAD_SECURE, FD_ESCALATION_STATUS]

/-- The key set of a scenario's field list. -/
def scenarioKeys (fields : List StructuredField) : List String :=
  fields.map (fun f => f.key)

/-- The keys present in a summary, in order. -/
def summaryKeys (s : List (String × FV)) : List String :=
  s.map Prod.fst

/-! ### Helper lemmas about substring containment and transcript rendering -/

lemma containsSub_nil_needle (hay : List Char) : containsSub [] hay = true := by
  induction hay with
  | nil => rfl
  | cons c rest ih => simp [containsSub, List.isPrefixOf]

lemma isPrefixOf_append_of_isPrefixOf :
    ∀ (p a b : List Char), p.isPrefixOf a = true → p.isPrefixOf (a ++ b) = true
  | [], _, _, _ => by simp [List.isPrefixOf]
  | _ :: _, [], _, h => by simp [List.isPrefixOf] at h
  | p :: ps, a :: as, b, h => by
    simp only [List.isPrefixOf, Bool.and_eq_true, beq_iff_eq] at h
    simp only [List.cons_append, List.isPrefixOf, Bool.and_eq_true, beq_iff_eq]
    exact ⟨h.1, isPrefixOf_append_of_isPrefixOf ps as b h.2⟩

lemma containsSub_append_right :
    ∀ (n a b : List Char), containsSub n a = true → containsSub n (a ++ b) = true
  | n, [], b, h => by
    have hn : n = [] := by
      simpa [containsSub, List.isEmpty_iff] using h
    subst hn
    exact containsSub_nil_needle b
  | n, c :: as, b, h => by
    simp only [containsSub, Bool.or_eq_true] at h
    simp only [List.cons_append, containsSub, Bool.or_eq_true]
    rcases h with h | h
    · exact Or.inl (by
        have := isPrefixOf_append_of_isPrefixOf n (c :: as) b h
        simpa using this)
    · exact Or.inr (containsSub_append_right n as b h)

lemma containsSub_append_left :
    ∀ (n a b : List Char), containsSub n b = true → containsSub n (a ++ b) = true
  | _, [], _, h => h
  | n, c :: as, b, h => by
    simp only [List.cons_append, containsSub, Bool.or_eq_true]
    exact Or.inr (containsSub_append_left n as b h)

lemma lowerData_append (a b : String) :
    lowerData (a ++ b) = lowerData a ++ lowerData b := by
  simp [lowerData, String.data_append]

lemma containsLC_append_right {a kw : String} (b : String)
    (h : containsLC a kw = true) : containsLC (a ++ b) kw = true := by
  unfold containsLC at h ⊢
  rw [lowerData_append]
  exact containsSub_append_right _ _ _ h

lemma containsLC_append_left {b kw : String} (a : String)
    (h : containsLC b kw = true) : containsLC (a ++ b) kw = true := by
  unfold containsLC at h ⊢
  rw [lowerData_append]
  exact containsSub_append_left _ _ _ h

/-- A keyword occurring in an utterance's text occurs in the rendered form of
that utterance. -/
lemma containsLC_renderUtterance {u : Utterance} {kw : String}
    (h : containsLC u.text kw = true) : containsLC (renderUtterance u) kw = true := by
  obtain ⟨sp, tx⟩ := u
  cases sp <;>
    exact containsLC_append_right "\n\n" (containsLC_append_left _ h)

/-- A keyword occurring in the text of some utterance of the log occurs in the
rendered transcript of the whole log. -/
lemma containsLC_renderLog_of_mem {u : Utterance} {log : List Utterance}
    {kw : String} (hm : u ∈ log) (h : containsLC u.text kw = true) :
    containsLC (renderLog log) kw = true := by
  induction log with
  | nil => cases hm
  | cons v rest ih =>
    rcases List.mem_cons.mp hm with rfl | hmem
    · exact containsLC_append_right _ (containsLC_renderUtterance h)
    · exact containsLC_append_left _ (ih hmem)

lemma renderLog_append (l m : List Utterance) :
    renderLog (l ++ m) = renderLog l ++ renderLog m := by
  induction l with
  | nil => simp [renderLog]
  | cons u rest ih => simp [renderLog, ih, String.append_assoc]

lemma hasEmergencyKw_append_right {a : String} (b : String)
    (h : hasEmergencyKw a = true) : hasEmergencyKw (a ++ b) = true := by
  unfold hasEmergencyKw at h ⊢
  simp only [Bool.or_eq_true] at h ⊢
  rcases h with ((h | h) | h) | h
  · exact Or.inl (Or.inl (Or.inl (containsLC_append_right b h)))
  · exact Or.inl (Or.inl (Or.inr (containsLC_append_right b h)))
  · exact Or.inl (Or.inr (containsLC_append_right b h))
  · exact Or.inr (containsLC_append_right b h)

/-- The emergency branch of `generateSummary`, spelled out. -/
lemma generateSummary_emergency {t : String} (h : hasEmergencyKw t = true) :
    generateSummary t =
      [("call_outcome", FV.str "Emergency Escalation"),
       ("driver_status", FV.str "Emergency"),
       ("current_location",
         FV.str (orElseStr (extractFromTranscript t locRegexAt)
           "I-10 mile marker 78")),
       ("eta", FV.str "Delayed due to emergency"),
       ("delay_reason", FV.str "Emergency"),
       ("unloading_status", FV.str "N/A"),
       ("pod_reminder_acknowledged", FV.bool false),
       ("emergency_type",
         FV.str (if containsLC t "blowout" then "Breakdown" else "Other")),
       ("safety_status", FV.str "Driver confirmed everyone is safe"),
       ("injury_status", FV.str "No injuries reported"),
       ("emergency_location", FV.str "I-10 eastbound mile marker 78"),
       ("load_secure", FV.bool true),
       ("escalation_status", FV.str "Connected to Human Dispatcher")] := by
  unfold generateSummary
  rw [if_pos h]

/-- Whenever the emergency test holds, the extracted outcome is
`"Emergency Escalation"`. -/
lemma callOutcome_of_emergency {t : String} (h : hasEmergencyKw t = true) :
    getField (generateSummary t) "call_outcome" =
      some (FV.str "Emergency Escalation") := by
  rw [generateSummary_emergency h]
  rfl

/-- Whenever the emergency test fails, the extracted outcome is one of the
two routine outcomes. -/
lemma callOutcome_of_not_emergency {t : String} (h : hasEmergencyKw t = false) :
    getField (generateSummary t) "call_outcome" =
        some (FV.str "In-Transit Update") ∨
      getField (generateSummary t) "call_outcome" =
        some (FV.str "Arrival Confirmation") := by
  unfold generateSummary
  rw [if_neg (by simp [h])]
  by_cases h2 : (containsLC t "late" || containsLC t "delay" ||
      containsLC t "traffic" || containsLC t "construction") = true
  · rw [if_pos h2]
    exact Or.inl rfl
  · rw [if_neg h2]
    by_cases h3 : (containsLC t "arrived" || containsLC t "here" ||
        containsLC t "dock" || containsLC t "unloading") = true
    · rw [if_pos h3]
      exact Or.inr rfl
    · rw [if_neg h3]
      exact Or.inl rfl

/-- The extracted outcome is `"Emergency Escalation"` exactly when the
emergency keyword test holds on the transcript. -/
lemma callOutcome_emergency_iff {t : String} :
    getField (generateSummary t) "call_outcome" =
        some (FV.str "Emergency Escalation") ↔ hasEmergencyKw t = true := by
  constructor
  · intro h
    by_contra hne
    have hf : hasEmergencyKw t = false := by
      simpa using hne
    rcases callOutcome_of_not_emergency hf with h' | h' <;>
      · rw [h'] at h
        simp at h
  · exact callOutcome_of_emergency

/-- The four keyword tests actually performed by `generateSummary`'s
emergency branch. -/
lemma hasEmergencyKw_of_kw {t kw : String}
    (hkw : kw ∈ ["emergency", "blowout", "accident", "breakdown"])
    (h : containsLC t kw = true) : hasEmergencyKw t = true := by
  unfold hasEmergencyKw
  simp only [List.mem_cons, List.not_mem_nil, or_false] at hkw
  rcases hkw with rfl | rfl | rfl | rfl <;> simp [h]

/-! ### Claim theorems -/

/-- Claim C1, counterexample: `"medical"` is one of the configured
`DEFAULT_EMERGENCY_PHRASES` and occurs in the driver utterance
`"this is a medical situation"`, yet the summary's `call_outcome` is
`"In-Transit Update"`, not `"Emergency Escalation"`: the extractor only
tests the four hardcoded keywords, not the configured phrase list. -/
theorem C1_counterexample :
    "medical" ∈ DEFAULT_EMERGENCY_PHRASES ∧
    containsLC "this is a medical situation" "medical" = true ∧
    getField (generateSummary
        (renderLog [Utterance.mk Speaker.driver "this is a medical situation"]))
        "call_outcome" ≠ some (FV.str "Emergency Escalation") ∧
    getField (generateSummary
        (renderLog [Utterance.mk Speaker.driver "this is a medical situation"]))
        "call_outcome" = some (FV.str "In-Transit Update") := by
  refine ⟨by decide, by decide, ?_, by decide⟩
  decide

/-- Claim C1 (amended): for every utterance log in which some driver
utterance contains one of the extractor's four hardcoded emergency keywords
(`"emergency"`, `"blowout"`, `"accident"`, `"breakdown"`,
case-insensitively), the summary produced at call end has
`call_outcome = "Emergency Escalation"`, regardless of where in the log the
keyword appears. -/
theorem C1_hardcoded_keyword_escalation (log : List Utterance) (u : Utterance)
    (kw : String) (hm : u ∈ log) (_hd : u.speaker = Speaker.driver)
    (hkw : kw ∈ ["emergency", "blowout", "accident", "breakdown"])
    (h : containsLC u.text kw = true) :
    getField (generateSummary (renderLog log)) "call_outcome" =
      some (FV.str "Emergency Escalation") :=
  callOutcome_of_emergency
    (hasEmergencyKw_of_kw hkw (containsLC_renderLog_of_mem hm h))

/-- Witness for C1: a one-utterance driver log reporting an accident. -/
theorem C1_hardcoded_keyword_escalation_witness :
    getField (generateSummary
        (renderLog [Utterance.mk Speaker.driver "We had an accident"]))
        "call_outcome" = some (FV.str "Emergency Escalation") :=
  C1_hardcoded_keyword_escalation
    [Utterance.mk Speaker.driver "We had an accident"]
    (Utterance.mk Speaker.driver "We had an accident") "accident"
    (by decide) rfl (by decide) (by decide)

/-- Claim C2: for every transcript on which the emergency keyword test is
false, the extracted `call_outcome` is `"In-Transit Update"` or
`"Arrival Confirmation"`, and never `"Emergency Escalation"`. -/
theorem C2_no_emergency_routine_outcome (t : String)
    (h : hasEmergencyKw t = false) :
    (getField (generateSummary t) "call_outcome" =
        some (FV.str "In-Transit Update") ∨
      getField (generateSummary t) "call_outcome" =
        some (FV.str "Arrival Confirmation")) ∧
    getField (generateSummary t) "call_outcome" ≠
      some (FV.str "Emergency Escalation") := by
  refine ⟨callOutcome_of_not_emergency h, ?_⟩
  rcases callOutcome_of_not_emergency h with h' | h' <;> rw [h'] <;> simp

/-- Witness for C2: the empty transcript triggers no emergency keyword. -/
theorem C2_no_emergency_routine_outcome_witness :
    hasEmergencyKw "" = false ∧
    ((getField (generateSummary "") "call_outcome" =
        some (FV.str "In-Transit Update") ∨
      getField (generateSummary "") "call_outcome" =
        some (FV.str "Arrival Confirmation")) ∧
    getField (generateSummary "") "call_outcome" ≠
      some (FV.str "Emergency Escalation")) :=
  ⟨by decide, C2_no_emergency_routine_outcome "" (by decide)⟩

/-- Claim C3, counterexample: on the empty utterance log the extractor does
not return `call_outcome = "Incomplete"`; it falls through to the default
branch and returns `"In-Transit Update"`. -/
theorem C3_counterexample :
    getField (generateSummary (renderLog ([] : List Utterance))) "call_outcome" ≠
      some (FV.str "Incomplete") ∧
    getField (generateSummary (renderLog ([] : List Utterance))) "call_outcome" =
      some (FV.str "In-Transit Update") := by
  refine ⟨?_, by decide⟩
  decide

/-- Claim C3 (amended): on the empty utterance log the extractor raises no
exception (it is a total function) and returns the full default-branch
summary, with `call_outcome = "In-Transit Update"` and every field filled by
its fallback value. -/
theorem C3_empty_log_summary :
    generateSummary (renderLog ([] : List Utterance)) =
      [("call_outcome", FV.str "In-Transit Update"),
       ("driver_status", FV.str "Driving"),
       ("current_location", FV.str "I-10 mile marker 85"),
       ("eta", FV.str "2:00 PM"),
       ("delay_reason", FV.str "None"),
       ("unloading_status", FV.str "N/A"),
       ("pod_reminder_acknowledged", FV.bool false)] := by
  decide

/-- Claim C4: the code misclassifies the claimed input.  The driver
utterance `"I'm driving on I-10, mile marker 85, should be there by 2pm"`
contains `"here"` as a substring of `"there"`, so the arrival branch fires:
the summary has `call_outcome = "Arrival Confirmation"` and
`current_location = "At destination dock"` (not `"In-Transit Update"` with a
location containing `"85"`); only `delay_reason = "None"` agrees with the
claim. -/
theorem C4_substring_misclassification :
    containsLC "I\x27m driving on I-10, mile marker 85, should be there by 2pm"
      "here" = true ∧
    getField (generateSummary (renderLog [Utterance.mk Speaker.driver
        "I\x27m driving on I-10, mile marker 85, should be there by 2pm"]))
        "call_outcome" = some (FV.str "Arrival Confirmation") ∧
    getField (generateSummary (renderLog [Utterance.mk Speaker.driver
        "I\x27m driving on I-10, mile marker 85, should be there by 2pm"]))
        "current_location" = some (FV.str "At destination dock") ∧
    getField (generateSummary (renderLog [Utterance.mk Speaker.driver
        "I\x27m driving on I-10, mile marker 85, should be there by 2pm"]))
        "delay_reason" = some (FV.str "None") := by
  refine ⟨by decide, by decide, by decide, by decide⟩

/-- Claim C5, counterexample: a driver utterance reporting an accident gets
`emergency_type = "Other"`, not `"Accident"`: the code only distinguishes
`"blowout"` (mapped to `"Breakdown"`) from everything else. -/
theorem C5_counterexample :
    getField (generateSummary (renderLog [Utterance.mk Speaker.driver
        "I had an accident on the highway"])) "call_outcome" =
      some (FV.str "Emergency Escalation") ∧
    getField (generateSummary (renderLog [Utterance.mk Speaker.driver
        "I had an accident on the highway"])) "emergency_type" =
      some (FV.str "Other") ∧
    getField (generateSummary (renderLog [Utterance.mk Speaker.driver
        "I had an accident on the highway"])) "emergency_type" ≠
      some (FV.str "Accident") := by
  refine ⟨by decide, by decide, ?_⟩
  decide

/-- Claim C5 (amended): when the emergency test holds, `emergency_type` is
`"Breakdown"` if the transcript contains `"blowout"` and `"Other"` in every
other case (there is no `"Accident"` or `"Medical"` category in the code);
in particular a blowout report yields `"Breakdown"`. -/
theorem C5_emergency_type_blowout_only (t : String)
    (h : hasEmergencyKw t = true) :
    getField (generateSummary t) "emergency_type" =
      some (FV.str (if containsLC t "blowout" then "Breakdown" else "Other")) := by
  rw [generateSummary_emergency h]
  rfl

/-- Witness for C5: the spec's blowout scenario input yields
`emergency_type = "Breakdown"`. -/
theorem C5_emergency_type_blowout_only_witness :
    getField (generateSummary (renderLog [Utterance.mk Speaker.driver
        "We had a blowout, everyone\x27s fine, no injuries, I-10 mile marker 78"]))
        "emergency_type" = some (FV.str "Breakdown") :=
  (C5_emergency_type_blowout_only
    (renderLog [Utterance.mk Speaker.driver
      "We had a blowout, everyone\x27s fine, no injuries, I-10 mile marker 78"])
    (by decide)).trans (by decide)

/-- Claim C6, counterexample: adding a dispatcher utterance changes the
outcome.  The log containing only the driver utterance `"All good so far"`
yields `"In-Transit Update"`, but appending the dispatcher utterance
`"Is this an emergency?"` (which contains the keyword `"emergency"`) flips
the outcome to `"Emergency Escalation"`: dispatcher utterances are scanned
too. -/
theorem C6_counterexample :
    getField (generateSummary
        (renderLog [Utterance.mk Speaker.driver "All good so far"]))
        "call_outcome" = some (FV.str "In-Transit Update") ∧
    getField (generateSummary
        (renderLog [Utterance.mk Speaker.driver "All good so far",
          Utterance.mk Speaker.dispatcher "Is this an emergency?"]))
        "call_outcome" = some (FV.str "Emergency Escalation") := by
  refine ⟨by decide, by decide⟩

/-- Claim C6 (amended): emergency detection scans the concatenated
transcript regardless of speaker: one of the four hardcoded keywords in any
utterance — dispatcher lines included — makes the outcome
`"Emergency Escalation"`. -/
theorem C6_detection_speaker_blind (log : List Utterance) (u : Utterance)
    (kw : String) (hm : u ∈ log)
    (hkw : kw ∈ ["emergency", "blowout", "accident", "breakdown"])
    (h : containsLC u.text kw = true) :
    getField (generateSummary (renderLog log)) "call_outcome" =
      some (FV.str "Emergency Escalation") :=
  callOutcome_of_emergency
    (hasEmergencyKw_of_kw hkw (containsLC_renderLog_of_mem hm h))

/-- Witness for C6: a dispatcher-only log whose line contains a keyword. -/
theorem C6_detection_speaker_blind_witness :
    getField (generateSummary
        (renderLog [Utterance.mk Speaker.dispatcher "Did you have an accident"]))
        "call_outcome" = some (FV.str "Emergency Escalation") :=
  C6_detection_speaker_blind
    [Utterance.mk Speaker.dispatcher "Did you have an accident"]
    (Utterance.mk Speaker.dispatcher "Did you have an accident") "accident"
    (by decide) (by decide) (by decide)

/-- Claim C7, counterexample: an emergency transcript produces a summary
whose key set is the full GENERAL field set — including `emergency_type` —
not the `driver_checkin` field set; the extractor takes no scenario input at
all, so this happens whatever scenario is active. -/
theorem C7_counterexample :
    summaryKeys (generateSummary
        (renderLog [Utterance.mk Speaker.driver "There was an accident"])) ≠
      scenarioKeys SCENARIO_FIELDS_DRIVER_CHECKIN ∧
    "emergency_type" ∈ summaryKeys (generateSummary
        (renderLog [Utterance.mk Speaker.driver "There was an accident"])) := by
  refine ⟨?_, by decide⟩
  decide

/-- Claim C7 (amended): the set of fields present in a summary is decided by
the emergency branch alone, not by the active scenario: an emergency summary
carries exactly the GENERAL scenario's field keys (in order) and every other
summary carries exactly the DRIVER_CHECKIN scenario's field keys; every
field always carries a concrete string or boolean value (fallbacks, never
omission). -/
theorem C7_field_set_by_branch (t : String) :
    summaryKeys (generateSummary t) =
      if hasEmergencyKw t = true then scenarioKeys SCENARIO_FIELDS_GENERAL
      else scenarioKeys SCENARIO_FIELDS_DRIVER_CHECKIN := by
  by_cases h : hasEmergencyKw t = true
  · rw [if_pos h, generateSummary_emergency h]
    rfl
  · rw [if_neg h]
    have hb : hasEmergencyKw t = false := by simpa using h
    unfold generateSummary
    rw [if_neg (by simp [hb])]
    by_cases h2 : (containsLC t "late" || containsLC t "delay" ||
        containsLC t "traffic" || containsLC t "construction") = true
    · rw [if_pos h2]
      rfl
    · rw [if_neg h2]
      by_cases h3 : (containsLC t "arrived" || containsLC t "here" ||
          containsLC t "dock" || containsLC t "unloading") = true
      · rw [if_pos h3]
        rfl
      · rw [if_neg h3]
        rfl

/-- Claim C8: the emergency outcome is monotone in the log: if a log's
summary has `call_outcome = "Emergency Escalation"`, then every extension of
that log by further utterances — any speaker, any content — still has it. -/
theorem C8_emergency_outcome_monotone (log ext : List Utterance)
    (h : getField (generateSummary (renderLog log)) "call_outcome" =
      some (FV.str "Emergency Escalation")) :
    getField (generateSummary (renderLog (log ++ ext))) "call_outcome" =
      some (FV.str "Emergency Escalation") := by
  apply callOutcome_of_emergency
  rw [renderLog_append]
  exact hasEmergencyKw_append_right _ (callOutcome_emergency_iff.mp h)

/-- Witness for C8: a blowout log extended by a dispatcher reply. -/
theorem C8_emergency_outcome_monotone_witness :
    getField (generateSummary
        (renderLog ([Utterance.mk Speaker.driver "We had a blowout"] ++
          [Utterance.mk Speaker.dispatcher "Help is on the way"])))
        "call_outcome" = some (FV.str "Emergency Escalation") :=
  C8_emergency_outcome_monotone
    [Utterance.mk Speaker.driver "We had a blowout"]
    [Utterance.mk Speaker.dispatcher "Help is on the way"] (by decide)

/-- Claim C9: both extractors are deterministic pure functions of the
utterance log: equal inputs give byte-identical structured summaries (the
code's extractors take only the transcript; there is no hidden state). -/
theorem C9_extraction_deterministic (log₁ log₂ : List Utterance)
    (h : log₁ = log₂) :
    generateSummary (renderLog log₁) = generateSummary (renderLog log₂) ∧
    analyzeCallTranscript (renderLog log₁) =
      analyzeCallTranscript (renderLog log₂) := by
  subst h
  exact ⟨rfl, rfl⟩

/-- Witness for C9: a concrete log compared with itself. -/
theorem C9_extraction_deterministic_witness :
    generateSummary (renderLog [Utterance.mk Speaker.driver "Running late in traffic"]) =
      generateSummary (renderLog [Utterance.mk Speaker.driver "Running late in traffic"]) ∧
    analyzeCallTranscript (renderLog [Utterance.mk Speaker.driver "Running late in traffic"]) =
      analyzeCallTranscript (renderLog [Utterance.mk Speaker.driver "Running late in traffic"]) :=
  C9_extraction_deterministic
    [Utterance.mk Speaker.driver "Running late in traffic"]
    [Utterance.mk Speaker.driver "Running late in traffic"] rfl

/-- Claim C10: on every transcript classified as emergency, the nine fields
`safety_status`, `injury_status`, `emergency_location`, `escalation_status`,
`load_secure`, `eta`, `delay_reason`, `unloading_status` and
`pod_reminder_acknowledged` take the same fixed constants, independent of
what the driver actually said; only `current_location` and `emergency_type`
depend on the transcript. -/
theorem C10_emergency_fixed_fields (t : String) (h : hasEmergencyKw t = true) :
    getField (generateSummary t) "safety_status" =
        some (FV.str "Driver confirmed everyone is safe") ∧
    getField (generateSummary t) "injury_status" =
        some (FV.str "No injuries reported") ∧
    getField (generateSummary t) "emergency_location" =
        some (FV.str "I-10 eastbound mile marker 78") ∧
    getField (generateSummary t) "escalation_status" =
        some (FV.str "Connected to Human Dispatcher") ∧
    getField (generateSummary t) "load_secure" = some (FV.bool true) ∧
    getField (generateSummary t) "eta" =
        some (FV.str "Delayed due to emergency") ∧
    getField (generateSummary t) "delay_reason" = some (FV.str "Emergency") ∧
    getField (generateSummary t) "unloading_status" = some (FV.str "N/A") ∧
    getField (generateSummary t) "pod_reminder_acknowledged" =
        some (FV.bool false) := by
  rw [generateSummary_emergency h]
  exact ⟨rfl, rfl, rfl, rfl, rfl, rfl, rfl, rfl, rfl⟩

/-- Witness for C10: a breakdown report. -/
theorem C10_emergency_fixed_fields_witness :
    hasEmergencyKw (renderLog [Utterance.mk Speaker.driver
        "Truck breakdown on the shoulder"]) = true ∧
    getField (generateSummary (renderLog [Utterance.mk Speaker.driver
        "Truck breakdown on the shoulder"])) "safety_status" =
      some (FV.str "Driver confirmed everyone is safe") :=
  ⟨by decide,
    (C10_emergency_fixed_fields
      (renderLog [Utterance.mk Speaker.driver "Truck breakdown on the shoulder"])
      (by decide)).1⟩

end DispatchCore
